import Mathlib

/-! Shallow embedding of the book scaffolder (src/book/init.rs) and the
markdown renderer (src/renderer/markdown_renderer.rs) of the mdBook core,
with proofs of the specification claims about them.

Filesystem state is modelled extensionally: a predicate telling which paths
are directories, and a partial map from paths to file contents.  Paths are
lists of components.  Fallible io primitives are parameterized by an oracle
that says which operations fail, standing for the environment (permissions,
disk); the `noFail` oracle is the environment where every operation
succeeds. -/

namespace MB

/-- A filesystem path, as a list of components. -/
abbrev FPath := List String

/-- True when q lies strictly below p in the directory tree. -/
def strictUnder (p q : FPath) : Bool := p.isPrefixOf q && q != p

/-- Filesystem state: which paths are directories, and file contents. -/
structure FS where
  dirs : FPath → Bool
  files : FPath → Option String

/-- Rust Path::exists: the path is a directory or a file. -/
def FS.pathExists (fs : FS) (p : FPath) : Bool :=
  fs.dirs p || (fs.files p).isSome

/-- fs::create_dir_all: create the directory and every missing ancestor. -/
def FS.createDirAll (fs : FS) (p : FPath) : FS :=
  FS.mk (fun d => d.isPrefixOf p || fs.dirs d) fs.files

/-- A plain file write (File::create + write, fs::write): overwrites any
existing file at that path. -/
def FS.writeFile (fs : FS) (p : FPath) (c : String) : FS :=
  FS.mk fs.dirs (fun q => if q = p then some c else fs.files q)

/-- Modelled from the spec: utils::fs::remove_dir_content (repository code
not under src/) recursively removes every entry strictly below p, keeping
the directory p itself. -/
def removeDirContent (fs : FS) (p : FPath) : FS :=
  FS.mk (fun d => fs.dirs d && !(strictUnder p d))
    (fun q => if strictUnder p q then none else fs.files q)

/-- Modelled from the spec: utils::fs::write_file (repository code not under
src/) writes content to dest/rel, creating intermediate directories. -/
def writeFileUtil (fs : FS) (dest rel : FPath) (c : String) : FS :=
  (fs.createDirAll (dest ++ rel).dropLast).writeFile (dest ++ rel) c

/-- Oracle deciding which primitive filesystem operations fail with an
io::Error. -/
structure Oracle where
  failWrite : FPath → Bool
  failCreateDir : FPath → Bool
  failRemove : FPath → Bool

/-- The environment where no filesystem operation fails. -/
def noFail : Oracle := Oracle.mk (fun _ => false) (fun _ => false) (fun _ => false)

/-- Modelled from the spec: the book table of the Configuration (the config
module is an external collaborator): source directory, default "src". -/
structure BookSection where
  src : FPath
deriving DecidableEq

/-- Modelled from the spec: the build table of the Configuration: build
directory, default "book". -/
structure BuildSection where
  build_dir : FPath
deriving DecidableEq

/-- Modelled from the spec: the html table of the Configuration: optional
theme directory. -/
structure HtmlSection where
  theme : Option FPath
deriving DecidableEq

/-- Modelled from the spec: the Configuration consumed by BookBuilder. -/
structure Config where
  book : BookSection
  build : BuildSection
  html : Option HtmlSection
deriving DecidableEq

/-- Config::default: src = "src", build-dir = "book", no html table. -/
def Config.default : Config :=
  Config.mk (BookSection.mk ["src"]) (BuildSection.mk ["book"]) none

/-- Config::html_config. -/
def Config.html_config (c : Config) : Option HtmlSection := c.html

/-- Modelled from the spec: Path display joins components with a slash. -/
def pathDisplay (p : FPath) : String := String.intercalate "/" p

/-- Modelled from the spec: toml serialization of the Configuration.  In the
model serialization is total, so the SerializeConfig error kind is never
produced. -/
def serializeConfig (c : Config) : String :=
  "[book]\nsrc = \"" ++ pathDisplay c.book.src ++ "\"\n\n[build]\nbuild-dir = \""
    ++ pathDisplay c.build.build_dir ++ "\"\n"

namespace theme

/-- Modelled from the spec: embedded default theme assets (the theme module
is repository code not under src/); each is a fixed byte string. -/
def INDEX : String := "embedded default index.hbs"

/-- Embedded default favicon.png bytes. -/
def FAVICON : String := "embedded default favicon.png"

/-- Embedded default book.js bytes. -/
def JS : String := "embedded default book.js"

/-- Embedded default highlight.css bytes. -/
def HIGHLIGHT_CSS : String := "embedded default highlight.css"

/-- Embedded default highlight.js bytes. -/
def HIGHLIGHT_JS : String := "embedded default highlight.js"

/-- Embedded default general.css bytes. -/
def GENERAL_CSS : String := "embedded default general.css"

/-- Embedded default chrome.css bytes. -/
def CHROME_CSS : String := "embedded default chrome.css"

/-- Embedded default print.css bytes. -/
def PRINT_CSS : String := "embedded default print.css"

/-- Embedded default variables.css bytes. -/
def VARIABLES_CSS : String := "embedded default variables.css"

end theme

/-- The Error enum of src/book/init.rs: the builder's error taxonomy,
path-annotated where filesystem-related. -/
inductive InitError
  | SerializeConfig
  | CreateConfig (path : FPath)
  | CreateThemeDir (path : FPath)
  | CreateThemeFile (path : FPath)
  | CreateGitignore (path : FPath)
  | CreateSummary (path : FPath)
  | CreateChapterOne (path : FPath)
  | CreateScaffoldDirectory (path : FPath)
deriving DecidableEq

/-- fs::create_dir_all wrapped with a snafu error context. -/
def createDirE (orc : Oracle) (ek : FPath → InitError) (p : FPath) (fs : FS) :
    Except InitError FS :=
  if orc.failCreateDir p then Except.error (ek p) else Except.ok (fs.createDirAll p)

/-- A file write wrapped with a snafu error context
(try_create_and_write_file / fs::write). -/
def writeFileE (orc : Oracle) (ek : FPath → InitError) (p : FPath) (c : String)
    (fs : FS) : Except InitError FS :=
  if orc.failWrite p then Except.error (ek p) else Except.ok (fs.writeFile p c)

/-- The BookBuilder struct of src/book/init.rs. -/
structure BookBuilder where
  root : FPath
  create_gitignore : Bool
  config : Config
  copy_theme : Bool
deriving DecidableEq

/-- BookBuilder::new. -/
def BookBuilder.new (root : FPath) : BookBuilder :=
  BookBuilder.mk root false Config.default false

/-- BookBuilder::with_config. -/
def BookBuilder.with_config (b : BookBuilder) (cfg : Config) : BookBuilder :=
  BookBuilder.mk b.root b.create_gitignore cfg b.copy_theme

/-- BookBuilder::copy_theme setter (named set_copy_theme here because the
field keeps the source name). -/
def BookBuilder.set_copy_theme (b : BookBuilder) (copy : Bool) : BookBuilder :=
  BookBuilder.mk b.root b.create_gitignore b.config copy

/-- BookBuilder::create_gitignore setter (named set_create_gitignore here
because the field keeps the source name). -/
def BookBuilder.set_create_gitignore (b : BookBuilder) (create : Bool) : BookBuilder :=
  BookBuilder.mk b.root create b.config b.copy_theme

/-- BookBuilder::create_directory_structure. -/
def create_directory_structure (orc : Oracle) (b : BookBuilder) (fs : FS) :
    Except InitError FS := do
  let fs1 ← createDirE orc InitError.CreateScaffoldDirectory b.root fs
  let fs2 ← createDirE orc InitError.CreateScaffoldDirectory
    (b.root ++ b.config.book.src) fs1
  createDirE orc InitError.CreateScaffoldDirectory
    (b.root ++ b.config.build.build_dir) fs2

/-- The stub SUMMARY.md content written by create_stub_files. -/
def summary_stub : String := "# Summary\n\n- [Chapter 1](./chapter_1.md)\n"

/-- The stub chapter_1.md content written by create_stub_files. -/
def chapter_1_stub : String := "# Chapter 1\n"

/-- BookBuilder::create_stub_files. -/
def create_stub_files (orc : Oracle) (b : BookBuilder) (fs : FS) :
    Except InitError FS :=
  let src_dir := b.root ++ b.config.book.src
  let summary := src_dir ++ ["SUMMARY.md"]
  if fs.pathExists summary then Except.ok fs
  else do
    let fs1 ← writeFileE orc InitError.CreateSummary summary summary_stub fs
    writeFileE orc InitError.CreateChapterOne (src_dir ++ ["chapter_1.md"])
      chapter_1_stub fs1

/-- BookBuilder::build_gitignore. -/
def build_gitignore (orc : Oracle) (b : BookBuilder) (fs : FS) :
    Except InitError FS :=
  writeFileE orc InitError.CreateGitignore (b.root ++ [".gitignore"])
    (pathDisplay b.config.build.build_dir ++ "\n") fs

/-- Theme directory resolution in BookBuilder::copy_across_theme:
config.html.theme if set, else config.book.src/theme. -/
def theme_dir (c : Config) : FPath :=
  (Option.bind c.html_config HtmlSection.theme).getD (c.book.src ++ ["theme"])

/-- BookBuilder::copy_across_theme. -/
def copy_across_theme (orc : Oracle) (b : BookBuilder) (fs : FS) :
    Except InitError FS := do
  let themedir := b.root ++ theme_dir b.config
  let cssdir := themedir ++ ["css"]
  let fs1 ← createDirE orc InitError.CreateThemeDir themedir fs
  let fs2 ← createDirE orc InitError.CreateThemeDir cssdir fs1
  let fs3 ← writeFileE orc InitError.CreateThemeFile (themedir ++ ["index.hbs"])
    theme.INDEX fs2
  let fs4 ← writeFileE orc InitError.CreateThemeFile (themedir ++ ["favicon.png"])
    theme.FAVICON fs3
  let fs5 ← writeFileE orc InitError.CreateThemeFile (themedir ++ ["book.js"])
    theme.JS fs4
  let fs6 ← writeFileE orc InitError.CreateThemeFile (themedir ++ ["highlight.css"])
    theme.HIGHLIGHT_CSS fs5
  let fs7 ← writeFileE orc InitError.CreateThemeFile (themedir ++ ["highlight.js"])
    theme.HIGHLIGHT_JS fs6
  let fs8 ← writeFileE orc InitError.CreateThemeFile (cssdir ++ ["general.css"])
    theme.GENERAL_CSS fs7
  let fs9 ← writeFileE orc InitError.CreateThemeFile (cssdir ++ ["chrome.css"])
    theme.CHROME_CSS fs8
  let fs10 ← writeFileE orc InitError.CreateThemeFile (cssdir ++ ["print.css"])
    theme.PRINT_CSS fs9
  writeFileE orc InitError.CreateThemeFile (cssdir ++ ["variables.css"])
    theme.VARIABLES_CSS fs10

/-- BookBuilder::write_book_toml. -/
def write_book_toml (orc : Oracle) (b : BookBuilder) (fs : FS) :
    Except InitError FS :=
  writeFileE orc InitError.CreateConfig (b.root ++ ["book.toml"])
    (serializeConfig b.config) fs

/-- Stages 1-5 of BookBuilder::build: the filesystem-transforming pipeline
run before the final load-and-validate step. -/
def buildStages (orc : Oracle) (b : BookBuilder) (fs : FS) : Except InitError FS := do
  let fs1 ← create_directory_structure orc b fs
  let fs2 ← create_stub_files orc b fs1
  let fs3 ← if b.create_gitignore then build_gitignore orc b fs2 else Except.ok fs2
  let fs4 ← if b.copy_theme then copy_across_theme orc b fs3 else Except.ok fs3
  write_book_toml orc b fs4

/-- A chapter of the loaded book model (external collaborator): its relative
output path and rendered content. -/
structure Chapter where
  path : FPath
  content : String
deriving DecidableEq

/-- BookItem of the book model: Chapter, Separator or PartTitle. -/
inductive BookItem
  | Chapter (ch : MB.Chapter)
  | Separator
  | PartTitle (title : String)
deriving DecidableEq

/-- The loaded book model: book.iter() yields items in document (depth-first)
order, so the iterator's output is modelled directly as a list. -/
structure Book where
  items : List BookItem
deriving DecidableEq

/-- Modelled from the spec: MDBook, the loaded book returned by MDBook::load
(repository code not under src/). -/
structure MDBook where
  root : FPath
  book : Book
deriving DecidableEq

/-- Outcome of BookBuilder::build: a normal Ok or Err return, or a panic. -/
inductive BuildOutcome
  | ok (book : MDBook)
  | err (e : InitError)
  | panic
deriving DecidableEq

/-- BookBuilder::build, parameterized by the loader MDBook::load (modelled
from the spec: it attempts to load a book model from root). -/
def build (load : FS → FPath → Option MDBook) (orc : Oracle) (b : BookBuilder)
    (fs : FS) : BuildOutcome :=
  match buildStages orc b fs with
  | Except.error e => BuildOutcome.err e
  | Except.ok fs1 =>
    match load fs1 b.root with
    | some book => BuildOutcome.ok book
    | none => BuildOutcome.panic

/-- RenderContext: destination path plus the loaded book model. -/
structure RenderContext where
  destination : FPath
  book : Book

/-- Error kinds of MarkdownRenderer::render: stale-output removal failure,
chapter-write failure, destination-creation failure. -/
inductive RenderError
  | RemoveStale
  | ChapterWrite (path : FPath)
  | DestCreate
deriving DecidableEq

/-- Result of a render run: the filesystem, the ordered log of file writes
performed, and the error if one stopped the run. -/
structure RenderOut where
  fs : FS
  log : List (FPath × String)
  err : Option RenderError

/-- The chapter loop of MarkdownRenderer::render (one write_file per
Chapter item, other items skipped); the log records each write in order. -/
def renderItems (orc : Oracle) (dest : FPath) : List BookItem → FS → RenderOut
  | [], fs => RenderOut.mk fs [] none
  | BookItem.Chapter ch :: rest, fs =>
    let full := dest ++ ch.path
    if orc.failWrite full then RenderOut.mk fs [] (some (RenderError.ChapterWrite full))
    else
      let out := renderItems orc dest rest (writeFileUtil fs dest ch.path ch.content)
      RenderOut.mk out.fs ((full, ch.content) :: out.log) out.err
  | BookItem.Separator :: rest, fs => renderItems orc dest rest fs
  | BookItem.PartTitle _ :: rest, fs => renderItems orc dest rest fs

/-- The final fs::create_dir_all(destination) step of render. -/
def finishRender (orc : Oracle) (dest : FPath) (out : RenderOut) : RenderOut :=
  match out.err with
  | some e => RenderOut.mk out.fs out.log (some e)
  | none =>
    if orc.failCreateDir dest then RenderOut.mk out.fs out.log (some RenderError.DestCreate)
    else RenderOut.mk (out.fs.createDirAll dest) out.log none

/-- MarkdownRenderer::render: stale-output removal, chapter loop, final
destination guarantee. -/
def render (orc : Oracle) (ctx : RenderContext) (fs : FS) : RenderOut :=
  if fs.pathExists ctx.destination then
    if orc.failRemove ctx.destination then
      RenderOut.mk fs [] (some RenderError.RemoveStale)
    else finishRender orc ctx.destination
      (renderItems orc ctx.destination ctx.book.items (removeDirContent fs ctx.destination))
  else finishRender orc ctx.destination (renderItems orc ctx.destination ctx.book.items fs)

/-- OS-level resolution of parent components: processing the components in
order, a ".." removes the previously accumulated component (at the root it
stays at the root), any other component is appended. -/
def resolveComps : FPath → FPath → FPath
  | acc, [] => acc
  | acc, c :: rest =>
    if c = ".." then resolveComps acc.dropLast rest
    else resolveComps (acc ++ [c]) rest

/-- The real location of a path containing ".." components: Path::join keeps
them lexically and the kernel resolves them against the directory tree when
the entry is created. -/
def resolve (p : FPath) : FPath := resolveComps [] p

/-- Modelled from the spec: utils::fs::write_file (repository code not under
src/) with OS-level resolution of parent components: the entry is created
at the resolved join of destination and rel, so a rel containing ".." can
leave the destination subtree. -/
def writeFileUtilR (fs : FS) (dest rel : FPath) (c : String) : FS :=
  (fs.createDirAll (resolve (dest ++ rel)).dropLast).writeFile (resolve (dest ++ rel)) c

/-- The chapter loop of MarkdownRenderer::render over the resolving write
model. -/
def renderItemsR (orc : Oracle) (dest : FPath) : List BookItem → FS → RenderOut
  | [], fs => RenderOut.mk fs [] none
  | BookItem.Chapter ch :: rest, fs =>
    let full := resolve (dest ++ ch.path)
    if orc.failWrite full then RenderOut.mk fs [] (some (RenderError.ChapterWrite full))
    else
      let out := renderItemsR orc dest rest (writeFileUtilR fs dest ch.path ch.content)
      RenderOut.mk out.fs ((full, ch.content) :: out.log) out.err
  | BookItem.Separator :: rest, fs => renderItemsR orc dest rest fs
  | BookItem.PartTitle _ :: rest, fs => renderItemsR orc dest rest fs

/-- MarkdownRenderer::render over the resolving write model. -/
def renderR (orc : Oracle) (ctx : RenderContext) (fs : FS) : RenderOut :=
  if fs.pathExists ctx.destination then
    if orc.failRemove ctx.destination then
      RenderOut.mk fs [] (some RenderError.RemoveStale)
    else finishRender orc ctx.destination
      (renderItemsR orc ctx.destination ctx.book.items (removeDirContent fs ctx.destination))
  else finishRender orc ctx.destination (renderItemsR orc ctx.destination ctx.book.items fs)

/-- The write_file calls a list of items induces: one per Chapter, in
document order. -/
def chapterLog (dest : FPath) (items : List BookItem) : List (FPath × String) :=
  items.filterMap (fun i => match i with
    | BookItem.Chapter ch => some (dest ++ ch.path, ch.content)
    | _ => none)

/-- Folding the chapter writes of a list of items over a filesystem. -/
def chapterFold (dest : FPath) (items : List BookItem) (fs : FS) : FS :=
  items.foldl (fun a i => match i with
    | BookItem.Chapter ch => writeFileUtil a dest ch.path ch.content
    | _ => a) fs

/-- Well-formed filesystem: every strict ancestor of an existing entry is a
directory. -/
def FS.wf (fs : FS) : Prop :=
  ∀ p q, fs.pathExists q = true → strictUnder p q = true → fs.dirs p = true

/-- The filesystem with no entries at all. -/
def fsEmpty : FS := FS.mk (fun _ => false) (fun _ => none)

/-- A filesystem holding only the empty root directory r. -/
def fsRootOnly : FS := FS.mk (fun d => d == [] || d == ["r"]) (fun _ => none)

/-- A filesystem holding a single user-written SUMMARY.md under r/src. -/
def fsSummaryOnly : FS :=
  FS.mk (fun _ => false)
    (fun q => if q = ["r", "src", "SUMMARY.md"] then some "user summary" else none)

/-- The result filesystem of stages 1-5 in the environment where no io
operation fails (they then always succeed, see buildStages_noFail). -/
def runStages (b : BookBuilder) (fs : FS) : FS :=
  match buildStages noFail b fs with
  | Except.ok fs1 => fs1
  | Except.error _ => fs

/-- The pure filesystem effect of create_directory_structure. -/
def dirsApply (b : BookBuilder) (fs : FS) : FS :=
  ((fs.createDirAll b.root).createDirAll (b.root ++ b.config.book.src)).createDirAll
    (b.root ++ b.config.build.build_dir)

/-- The pure filesystem effect of create_stub_files. -/
def stubApply (b : BookBuilder) (fs : FS) : FS :=
  let src_dir := b.root ++ b.config.book.src
  let summary := src_dir ++ ["SUMMARY.md"]
  if fs.pathExists summary then fs
  else (fs.writeFile summary summary_stub).writeFile (src_dir ++ ["chapter_1.md"])
    chapter_1_stub

/-- The pure filesystem effect of build_gitignore. -/
def gitignoreApply (b : BookBuilder) (fs : FS) : FS :=
  fs.writeFile (b.root ++ [".gitignore"]) (pathDisplay b.config.build.build_dir ++ "\n")

/-- The pure filesystem effect of copy_across_theme. -/
def themeApply (b : BookBuilder) (fs : FS) : FS :=
  let themedir := b.root ++ theme_dir b.config
  let cssdir := themedir ++ ["css"]
  (((((((((((fs.createDirAll themedir).createDirAll cssdir).writeFile
    (themedir ++ ["index.hbs"]) theme.INDEX).writeFile
    (themedir ++ ["favicon.png"]) theme.FAVICON).writeFile
    (themedir ++ ["book.js"]) theme.JS).writeFile
    (themedir ++ ["highlight.css"]) theme.HIGHLIGHT_CSS).writeFile
    (themedir ++ ["highlight.js"]) theme.HIGHLIGHT_JS).writeFile
    (cssdir ++ ["general.css"]) theme.GENERAL_CSS).writeFile
    (cssdir ++ ["chrome.css"]) theme.CHROME_CSS).writeFile
    (cssdir ++ ["print.css"]) theme.PRINT_CSS).writeFile
    (cssdir ++ ["variables.css"]) theme.VARIABLES_CSS)

/-- The pure filesystem effect of write_book_toml. -/
def tomlApply (b : BookBuilder) (fs : FS) : FS :=
  fs.writeFile (b.root ++ ["book.toml"]) (serializeConfig b.config)

/-- The composed effect of stages 2-4 (stub files, optional gitignore,
optional theme) of the pipeline. -/
def midApply (b : BookBuilder) (fs : FS) : FS :=
  if b.copy_theme then
    themeApply b (if b.create_gitignore then gitignoreApply b (stubApply b fs)
      else stubApply b fs)
  else
    if b.create_gitignore then gitignoreApply b (stubApply b fs) else stubApply b fs

/-- The nine theme asset paths written by copy_across_theme, in the order
the source writes them. -/
def themePaths (b : BookBuilder) : List FPath :=
  [b.root ++ theme_dir b.config ++ ["index.hbs"],
   b.root ++ theme_dir b.config ++ ["favicon.png"],
   b.root ++ theme_dir b.config ++ ["book.js"],
   b.root ++ theme_dir b.config ++ ["highlight.css"],
   b.root ++ theme_dir b.config ++ ["highlight.js"],
   b.root ++ theme_dir b.config ++ ["css"] ++ ["general.css"],
   b.root ++ theme_dir b.config ++ ["css"] ++ ["chrome.css"],
   b.root ++ theme_dir b.config ++ ["css"] ++ ["print.css"],
   b.root ++ theme_dir b.config ++ ["css"] ++ ["variables.css"]]

/-- Under the noFail oracle every stage succeeds, so buildStages returns
exactly the runStages filesystem. -/
theorem buildStages_noFail (b : BookBuilder) (fs : FS) :
    buildStages noFail b fs = Except.ok (runStages b fs) := by
  have h : ∀ e, buildStages noFail b fs ≠ Except.error e := by
    intro e
    cases hg : b.create_gitignore <;> cases ht : b.copy_theme <;>
      simp [buildStages, create_directory_structure, create_stub_files,
        build_gitignore, copy_across_theme, write_book_toml, createDirE,
        writeFileE, noFail, bind, Except.bind, hg, ht] <;>
      split <;> simp_all [ite_eq_iff]
  unfold runStages
  cases hb : buildStages noFail b fs with
  | ok fs1 => rfl
  | error e => exact absurd hb (h e)

/-- Cancelling a common left part in the boolean prefix test. -/
theorem isPrefixOf_append_cancel (l a c : FPath) :
    (l ++ a).isPrefixOf (l ++ c) = a.isPrefixOf c := by
  rw [Bool.eq_iff_iff]
  simp only [List.isPrefixOf_iff_prefix]
  exact List.prefix_append_right_inj l

/-- Two paths with distinct final components are distinct. -/
theorem append_ne_of_last_ne (xs ys : FPath) (a c : String) (h : a ≠ c) :
    xs ++ [a] ≠ ys ++ [c] := by
  intro he
  have h2 := congrArg List.getLast? he
  simp only [List.getLast?_concat, Option.some.injEq] at h2
  exact h h2

/-- Unfolding strict containment into an explicit nonempty extension. -/
theorem strictUnder_iff (p q : FPath) :
    strictUnder p q = true ↔ ∃ t, t ≠ [] ∧ q = p ++ t := by
  constructor
  · intro h
    simp only [strictUnder, Bool.and_eq_true, bne_iff_ne, ne_eq,
      List.isPrefixOf_iff_prefix] at h
    obtain ⟨⟨t, ht⟩, hne⟩ := h
    refine ⟨t, fun h0 => ?_, ht.symm⟩
    apply hne
    rw [← ht, h0, List.append_nil]
  · rintro ⟨t, ht, rfl⟩
    simp [strictUnder, List.isPrefixOf_iff_prefix, List.prefix_append,
      List.append_right_eq_self, ht]

/-- A nonempty extension lies strictly under the base path. -/
theorem strictUnder_append (p t : FPath) (h : t ≠ []) :
    strictUnder p (p ++ t) = true :=
  (strictUnder_iff p (p ++ t)).mpr ⟨t, h, rfl⟩

/-- The noFail oracle lets every write succeed. -/
theorem noFail_failWrite (p : FPath) : noFail.failWrite p = false := rfl

/-- The noFail oracle lets every directory creation succeed. -/
theorem noFail_failCreateDir (p : FPath) : noFail.failCreateDir p = false := rfl

/-- The noFail oracle lets every removal succeed. -/
theorem noFail_failRemove (p : FPath) : noFail.failRemove p = false := rfl

/-- Under the noFail oracle the chapter loop performs exactly the chapter
writes, in document order, and reports no error. -/
theorem renderItems_noFail (dest : FPath) (items : List BookItem) (fs : FS) :
    renderItems noFail dest items fs =
      RenderOut.mk (chapterFold dest items fs) (chapterLog dest items) none := by
  induction items generalizing fs with
  | nil => rfl
  | cons i rest ih =>
    cases i with
    | Chapter ch =>
      rw [show renderItems noFail dest (BookItem.Chapter ch :: rest) fs =
          RenderOut.mk
            (renderItems noFail dest rest (writeFileUtil fs dest ch.path ch.content)).fs
            ((dest ++ ch.path, ch.content) ::
              (renderItems noFail dest rest (writeFileUtil fs dest ch.path ch.content)).log)
            (renderItems noFail dest rest (writeFileUtil fs dest ch.path ch.content)).err
        from rfl, ih]
      simp [chapterFold, chapterLog]
    | Separator =>
      rw [show renderItems noFail dest (BookItem.Separator :: rest) fs =
          renderItems noFail dest rest fs from rfl, ih]
      simp [chapterFold, chapterLog]
    | PartTitle title =>
      rw [show renderItems noFail dest (BookItem.PartTitle title :: rest) fs =
          renderItems noFail dest rest fs from rfl, ih]
      simp [chapterFold, chapterLog]

/-- A successful render: stale contents removed when the destination
exists, the chapter writes folded over the filesystem, the destination
directory created, the chapter write log, and no error. -/
theorem render_noFail (ctx : RenderContext) (fs : FS) :
    render noFail ctx fs =
      RenderOut.mk
        ((chapterFold ctx.destination ctx.book.items
          (if fs.pathExists ctx.destination then removeDirContent fs ctx.destination
           else fs)).createDirAll ctx.destination)
        (chapterLog ctx.destination ctx.book.items) none := by
  unfold render
  by_cases h : fs.pathExists ctx.destination = true <;>
    simp [h, noFail_failRemove, noFail_failCreateDir, renderItems_noFail, finishRender]

/-- C10: each fluent setter mutates only its own field of the BookBuilder
and returns the builder so updated: with_config changes only config,
set_copy_theme only the copy_theme flag, set_create_gitignore only the
create_gitignore flag, and the root set by new(root) is preserved by every
setter. -/
theorem c10_setters_frame (b : BookBuilder) (cfg : Config) (t g : Bool) (r : FPath) :
    (b.with_config cfg).config = cfg ∧
    (b.with_config cfg).root = b.root ∧
    (b.with_config cfg).copy_theme = b.copy_theme ∧
    (b.with_config cfg).create_gitignore = b.create_gitignore ∧
    (b.set_copy_theme t).copy_theme = t ∧
    (b.set_copy_theme t).root = b.root ∧
    (b.set_copy_theme t).config = b.config ∧
    (b.set_copy_theme t).create_gitignore = b.create_gitignore ∧
    (b.set_create_gitignore g).create_gitignore = g ∧
    (b.set_create_gitignore g).root = b.root ∧
    (b.set_create_gitignore g).config = b.config ∧
    (b.set_create_gitignore g).copy_theme = b.copy_theme ∧
    (BookBuilder.new r).root = r :=
  ⟨rfl, rfl, rfl, rfl, rfl, rfl, rfl, rfl, rfl, rfl, rfl, rfl, rfl⟩

/-- C2: a successful render writes exactly one file per Chapter item, at
destination ++ chapter.path with that chapter's content, in the book's
document order, and writes no file for Separator or PartTitle items: the
ordered write log equals the chapter list filtered and mapped to its
write targets. -/
theorem c2_render_one_file_per_chapter (ctx : RenderContext) (fs : FS) :
    (render noFail ctx fs).log = chapterLog ctx.destination ctx.book.items ∧
    (render noFail ctx fs).err = none := by
  rw [render_noFail]
  exact ⟨rfl, rfl⟩

/-- C6: render is not transactional: when the write of one chapter fails,
the loop stops with the chapter-write error, the write log holds exactly
the writes of the earlier chapters, and the filesystem keeps exactly those
earlier writes — no later chapter is attempted and no cleanup occurs. -/
theorem c6_render_not_transactional (orc : Oracle) (dest : FPath)
    (pre : List BookItem) (ch : Chapter) (post : List BookItem) (fs : FS)
    (hpre : pre.all (fun i => match i with
      | BookItem.Chapter c => !(orc.failWrite (dest ++ c.path))
      | _ => true) = true)
    (hfail : orc.failWrite (dest ++ ch.path) = true) :
    renderItems orc dest (pre ++ BookItem.Chapter ch :: post) fs =
      RenderOut.mk (chapterFold dest pre fs) (chapterLog dest pre)
        (some (RenderError.ChapterWrite (dest ++ ch.path))) := by
  induction pre generalizing fs with
  | nil => simp [renderItems, hfail, chapterFold, chapterLog]
  | cons i rest ih =>
    cases i with
    | Chapter c =>
      simp only [List.all_cons, Bool.and_eq_true, Bool.not_eq_true',
        Bool.not_eq_eq_eq_not, Bool.not_true] at hpre
      simp [renderItems, hpre.1, chapterFold, chapterLog, ih _ hpre.2]
    | Separator =>
      simp only [List.all_cons, Bool.and_eq_true] at hpre
      simp [renderItems, chapterFold, chapterLog, ih _ hpre.2]
    | PartTitle title =>
      simp only [List.all_cons, Bool.and_eq_true] at hpre
      simp [renderItems, chapterFold, chapterLog, ih _ hpre.2]

/-- Witness for C6 at a concrete three-chapter book whose second chapter
write fails. -/
theorem c6_witness :
    renderItems (Oracle.mk (fun p => p == ["d", "c2.md"]) (fun _ => false) (fun _ => false))
      ["d"]
      [BookItem.Chapter (Chapter.mk ["c1.md"] "one"),
        BookItem.Chapter (Chapter.mk ["c2.md"] "two"),
        BookItem.Chapter (Chapter.mk ["c3.md"] "three")] fsEmpty =
      RenderOut.mk
        (chapterFold ["d"] [BookItem.Chapter (Chapter.mk ["c1.md"] "one")] fsEmpty)
        (chapterLog ["d"] [BookItem.Chapter (Chapter.mk ["c1.md"] "one")])
        (some (RenderError.ChapterWrite ["d", "c2.md"])) :=
  c6_render_not_transactional
    (Oracle.mk (fun p => p == ["d", "c2.md"]) (fun _ => false) (fun _ => false))
    ["d"] [BookItem.Chapter (Chapter.mk ["c1.md"] "one")]
    (Chapter.mk ["c2.md"] "two") [BookItem.Chapter (Chapter.mk ["c3.md"] "three")]
    fsEmpty (by decide) (by decide)

/-- C1: when stages 1-5 succeed, build never returns a normal Err value:
it returns Ok(book) exactly when the loader succeeds, and the loader's
failure is escalated as the panic outcome, distinct from every error kind
of the builder's taxonomy. -/
theorem c1_build_panics_iff_load_fails (load : FS → FPath → Option MDBook)
    (orc : Oracle) (b : BookBuilder) (fs fs1 : FS)
    (h : buildStages orc b fs = Except.ok fs1) :
    (∀ e, build load orc b fs ≠ BuildOutcome.err e) ∧
    (∀ book, build load orc b fs = BuildOutcome.ok book ↔ load fs1 b.root = some book) ∧
    (build load orc b fs = BuildOutcome.panic ↔ load fs1 b.root = none) := by
  unfold build
  rw [h]
  cases hl : load fs1 b.root <;> simp [hl]

/-- Witness for C1: with a loader that always fails, build on an empty
filesystem panics. -/
theorem c1_witness :
    build (fun _ _ => none) noFail (BookBuilder.new ["r"]) fsEmpty = BuildOutcome.panic :=
  ((c1_build_panics_iff_load_fails (fun _ _ => none) noFail (BookBuilder.new ["r"])
    fsEmpty (runStages (BookBuilder.new ["r"]) fsEmpty)
    (buildStages_noFail (BookBuilder.new ["r"]) fsEmpty)).2.2).mpr rfl

/-- Stage 1 under noFail: the pure directory-creation effect. -/
theorem create_directory_structure_noFail (b : BookBuilder) (fs : FS) :
    create_directory_structure noFail b fs = Except.ok (dirsApply b fs) := rfl

/-- Stage 2 under noFail: the pure stub-creation effect. -/
theorem create_stub_files_noFail (b : BookBuilder) (fs : FS) :
    create_stub_files noFail b fs = Except.ok (stubApply b fs) := by
  unfold create_stub_files stubApply
  dsimp only
  split <;> rfl

/-- Stage 3 under noFail: the pure gitignore-write effect. -/
theorem build_gitignore_noFail (b : BookBuilder) (fs : FS) :
    build_gitignore noFail b fs = Except.ok (gitignoreApply b fs) := rfl

/-- Stage 4 under noFail: the pure theme-copy effect. -/
theorem copy_across_theme_noFail (b : BookBuilder) (fs : FS) :
    copy_across_theme noFail b fs = Except.ok (themeApply b fs) := rfl

/-- Stage 5 under noFail: the pure configuration-write effect. -/
theorem write_book_toml_noFail (b : BookBuilder) (fs : FS) :
    write_book_toml noFail b fs = Except.ok (tomlApply b fs) := rfl

/-- The full pipeline under noFail is the composition of the stage
effects. -/
theorem buildStages_noFail_eq (b : BookBuilder) (fs : FS) :
    buildStages noFail b fs = Except.ok (tomlApply b (midApply b (dirsApply b fs))) := by
  unfold buildStages midApply
  rw [create_directory_structure_noFail]
  cases hg : b.create_gitignore <;> cases ht : b.copy_theme <;>
    simp [create_stub_files_noFail, build_gitignore_noFail, copy_across_theme_noFail,
      write_book_toml_noFail, bind, Except.bind]

/-- runStages is the composition of the pure stage effects. -/
theorem runStages_eq (b : BookBuilder) (fs : FS) :
    runStages b fs = tomlApply b (midApply b (dirsApply b fs)) := by
  have h1 := buildStages_noFail b fs
  have h2 := buildStages_noFail_eq b fs
  rw [h1] at h2
  exact Except.ok.inj h2

/-- Pointwise file contents after a write. -/
theorem writeFile_files (fs : FS) (p q : FPath) (c : String) :
    (fs.writeFile p c).files q = if q = p then some c else fs.files q := rfl

/-- Writes do not change directories. -/
theorem writeFile_dirs (fs : FS) (p q : FPath) (c : String) :
    (fs.writeFile p c).dirs q = fs.dirs q := rfl

/-- Directory creation does not change files. -/
theorem createDirAll_files (fs : FS) (p q : FPath) :
    (fs.createDirAll p).files q = fs.files q := rfl

/-- Pointwise directories after create_dir_all. -/
theorem createDirAll_dirs (fs : FS) (p q : FPath) :
    (fs.createDirAll p).dirs q = (q.isPrefixOf p || fs.dirs q) := rfl

/-- Stage 1 does not change files. -/
theorem dirsApply_files (b : BookBuilder) (fs : FS) (q : FPath) :
    (dirsApply b fs).files q = fs.files q := rfl

/-- Pointwise directories after stage 1. -/
theorem dirsApply_dirs (b : BookBuilder) (fs : FS) (q : FPath) :
    (dirsApply b fs).dirs q =
      (q.isPrefixOf (b.root ++ b.config.build.build_dir) ||
        (q.isPrefixOf (b.root ++ b.config.book.src) ||
          (q.isPrefixOf b.root || fs.dirs q))) := rfl

/-- Stage 2 does not change directories. -/
theorem stubApply_dirs (b : BookBuilder) (fs : FS) (q : FPath) :
    (stubApply b fs).dirs q = fs.dirs q := by
  unfold stubApply
  dsimp only
  split <;> rfl

/-- Pointwise file contents after stage 2. -/
theorem stubApply_files (b : BookBuilder) (fs : FS) (q : FPath) :
    (stubApply b fs).files q =
      if fs.pathExists (b.root ++ b.config.book.src ++ ["SUMMARY.md"]) then fs.files q
      else if q = b.root ++ b.config.book.src ++ ["chapter_1.md"] then some chapter_1_stub
      else if q = b.root ++ b.config.book.src ++ ["SUMMARY.md"] then some summary_stub
      else fs.files q := by
  unfold stubApply
  dsimp only
  simp only [List.append_assoc]
  by_cases h : fs.pathExists (b.root ++ (b.config.book.src ++ ["SUMMARY.md"])) = true
  · simp [h]
  · simp [h, writeFile_files]

/-- Stage 3 does not change directories. -/
theorem gitignoreApply_dirs (b : BookBuilder) (fs : FS) (q : FPath) :
    (gitignoreApply b fs).dirs q = fs.dirs q := rfl

/-- Pointwise file contents after stage 3. -/
theorem gitignoreApply_files (b : BookBuilder) (fs : FS) (q : FPath) :
    (gitignoreApply b fs).files q =
      if q = b.root ++ [".gitignore"] then
        some (pathDisplay b.config.build.build_dir ++ "\n")
      else fs.files q := rfl

/-- Pointwise directories after stage 4. -/
theorem themeApply_dirs (b : BookBuilder) (fs : FS) (q : FPath) :
    (themeApply b fs).dirs q =
      (q.isPrefixOf (b.root ++ theme_dir b.config ++ ["css"]) ||
        (q.isPrefixOf (b.root ++ theme_dir b.config) || fs.dirs q)) := rfl

/-- Pointwise file contents after stage 4: the nine theme assets. -/
theorem themeApply_files (b : BookBuilder) (fs : FS) (q : FPath) :
    (themeApply b fs).files q =
      if q = b.root ++ theme_dir b.config ++ ["css"] ++ ["variables.css"] then some theme.VARIABLES_CSS
      else if q = b.root ++ theme_dir b.config ++ ["css"] ++ ["print.css"] then some theme.PRINT_CSS
      else if q = b.root ++ theme_dir b.config ++ ["css"] ++ ["chrome.css"] then some theme.CHROME_CSS
      else if q = b.root ++ theme_dir b.config ++ ["css"] ++ ["general.css"] then some theme.GENERAL_CSS
      else if q = b.root ++ theme_dir b.config ++ ["highlight.js"] then some theme.HIGHLIGHT_JS
      else if q = b.root ++ theme_dir b.config ++ ["highlight.css"] then some theme.HIGHLIGHT_CSS
      else if q = b.root ++ theme_dir b.config ++ ["book.js"] then some theme.JS
      else if q = b.root ++ theme_dir b.config ++ ["favicon.png"] then some theme.FAVICON
      else if q = b.root ++ theme_dir b.config ++ ["index.hbs"] then some theme.INDEX
      else fs.files q := rfl

/-- Stage 5 does not change directories. -/
theorem tomlApply_dirs (b : BookBuilder) (fs : FS) (q : FPath) :
    (tomlApply b fs).dirs q = fs.dirs q := rfl

/-- Pointwise file contents after stage 5. -/
theorem tomlApply_files (b : BookBuilder) (fs : FS) (q : FPath) :
    (tomlApply b fs).files q =
      if q = b.root ++ ["book.toml"] then some (serializeConfig b.config)
      else fs.files q := rfl

/-- A proper extension of a path is never a prefix of it. -/
theorem append_isPrefixOf_self (l t : FPath) (h : t ≠ []) :
    (l ++ t).isPrefixOf l = false := by
  rw [← Bool.not_eq_true]
  intro hc
  have h2 : (l ++ t) <+: l := List.isPrefixOf_iff_prefix.mp hc
  have h3 := h2.length_le
  rw [List.length_append] at h3
  exact h (List.length_eq_zero.mp (Nat.le_zero.mp (Nat.le_of_add_le_add_left h3)))

/-- A path strictly under p is not a prefix of p. -/
theorem strictUnder_not_isPrefixOf (p q : FPath) (h : strictUnder p q = true) :
    q.isPrefixOf p = false := by
  obtain ⟨t, ht, rfl⟩ := (strictUnder_iff p q).mp h
  exact append_isPrefixOf_self p t ht

/-- Prefixes of a one-component path. -/
theorem isPrefixOf_singleton (t : FPath) (x : String) :
    t.isPrefixOf [x] = true ↔ t = [] ∨ t = [x] := by
  rw [List.isPrefixOf_iff_prefix]
  constructor
  · intro h
    cases t with
    | nil => exact Or.inl rfl
    | cons a rest =>
      rw [List.cons_prefix_cons] at h
      obtain ⟨rfl, h2⟩ := h
      rw [List.prefix_nil] at h2
      rw [h2]
      exact Or.inr rfl
  · rintro (rfl | rfl)
    · exact List.nil_prefix
    · exact List.prefix_refl _

/-- Stage 1 only adds directories, so existing paths still exist. -/
theorem pathExists_dirsApply (b : BookBuilder) (fs : FS) (q : FPath)
    (h : fs.pathExists q = true) : (dirsApply b fs).pathExists q = true := by
  simp only [FS.pathExists, dirsApply_dirs, dirsApply_files, Bool.or_eq_true] at h ⊢
  tauto

/-- Stage 4 leaves every file whose final component is not one of the nine
theme asset names unchanged. -/
theorem themeApply_files_frame (b : BookBuilder) (fs : FS) (xs : FPath) (a : String)
    (h : a ∉ (["variables.css", "print.css", "chrome.css", "general.css",
      "highlight.js", "highlight.css", "book.js", "favicon.png", "index.hbs"] : List String)) :
    (themeApply b fs).files (xs ++ [a]) = fs.files (xs ++ [a]) := by
  simp only [List.mem_cons, List.not_mem_nil, or_false, not_or] at h
  obtain ⟨h1, h2, h3, h4, h5, h6, h7, h8, h9⟩ := h
  rw [themeApply_files,
    if_neg (append_ne_of_last_ne xs _ a "variables.css" h1),
    if_neg (append_ne_of_last_ne xs _ a "print.css" h2),
    if_neg (append_ne_of_last_ne xs _ a "chrome.css" h3),
    if_neg (append_ne_of_last_ne xs _ a "general.css" h4),
    if_neg (append_ne_of_last_ne xs _ a "highlight.js" h5),
    if_neg (append_ne_of_last_ne xs _ a "highlight.css" h6),
    if_neg (append_ne_of_last_ne xs _ a "book.js" h7),
    if_neg (append_ne_of_last_ne xs _ a "favicon.png" h8),
    if_neg (append_ne_of_last_ne xs _ a "index.hbs" h9)]

/-- C7: with create_gitignore(true), the build pipeline writes root/.gitignore
with content byte-exactly the build directory's displayed relative path
followed by a newline, whatever file was there before. -/
theorem c7_gitignore_content (b : BookBuilder) (fs : FS)
    (h : b.create_gitignore = true) :
    (runStages b fs).files (b.root ++ [".gitignore"]) =
      some (pathDisplay b.config.build.build_dir ++ "\n") := by
  rw [runStages_eq, tomlApply_files,
    if_neg (append_ne_of_last_ne b.root b.root ".gitignore" "book.toml" (by decide))]
  unfold midApply
  rw [h]
  cases ht : b.copy_theme
  · show (gitignoreApply b (stubApply b (dirsApply b fs))).files (b.root ++ [".gitignore"]) = _
    rw [gitignoreApply_files, if_pos rfl]
  · show (themeApply b (gitignoreApply b (stubApply b (dirsApply b fs)))).files
      (b.root ++ [".gitignore"]) = _
    rw [themeApply_files,
      if_neg (append_ne_of_last_ne b.root _ ".gitignore" "variables.css" (by decide)),
      if_neg (append_ne_of_last_ne b.root _ ".gitignore" "print.css" (by decide)),
      if_neg (append_ne_of_last_ne b.root _ ".gitignore" "chrome.css" (by decide)),
      if_neg (append_ne_of_last_ne b.root _ ".gitignore" "general.css" (by decide)),
      if_neg (append_ne_of_last_ne b.root _ ".gitignore" "highlight.js" (by decide)),
      if_neg (append_ne_of_last_ne b.root _ ".gitignore" "highlight.css" (by decide)),
      if_neg (append_ne_of_last_ne b.root _ ".gitignore" "book.js" (by decide)),
      if_neg (append_ne_of_last_ne b.root _ ".gitignore" "favicon.png" (by decide)),
      if_neg (append_ne_of_last_ne b.root _ ".gitignore" "index.hbs" (by decide)),
      gitignoreApply_files, if_pos rfl]

/-- Witness for C7 at a concrete builder with the gitignore flag set. -/
theorem c7_witness :
    (runStages (BookBuilder.set_create_gitignore (BookBuilder.new ["r"]) true) fsEmpty).files
        (["r"] ++ [".gitignore"]) =
      some (pathDisplay Config.default.build.build_dir ++ "\n") :=
  c7_gitignore_content (BookBuilder.set_create_gitignore (BookBuilder.new ["r"]) true)
    fsEmpty rfl

/-- C4: when src/SUMMARY.md already exists, a second run of the pipeline
skips the stub stage entirely, leaves SUMMARY.md and chapter_1.md
byte-for-byte unchanged, and still rewrites book.toml with the serialized
configuration. -/
theorem c4_build_idempotent_stub (b : BookBuilder) (fs : FS)
    (h : fs.pathExists (b.root ++ b.config.book.src ++ ["SUMMARY.md"]) = true) :
    create_stub_files noFail b fs = Except.ok fs ∧
    (runStages b fs).files (b.root ++ b.config.book.src ++ ["SUMMARY.md"]) =
      fs.files (b.root ++ b.config.book.src ++ ["SUMMARY.md"]) ∧
    (runStages b fs).files (b.root ++ b.config.book.src ++ ["chapter_1.md"]) =
      fs.files (b.root ++ b.config.book.src ++ ["chapter_1.md"]) ∧
    (runStages b fs).files (b.root ++ ["book.toml"]) = some (serializeConfig b.config) := by
  have hex : (dirsApply b fs).pathExists (b.root ++ b.config.book.src ++ ["SUMMARY.md"]) = true :=
    pathExists_dirsApply b fs _ h
  refine ⟨?_, ?_, ?_, ?_⟩
  · unfold create_stub_files
    dsimp only
    rw [if_pos h]
  · rw [runStages_eq, tomlApply_files,
      if_neg (append_ne_of_last_ne _ b.root "SUMMARY.md" "book.toml" (by decide))]
    unfold midApply
    cases hg : b.create_gitignore <;> cases ht : b.copy_theme
    · show (stubApply b (dirsApply b fs)).files _ = _
      rw [stubApply_files, if_pos hex, dirsApply_files]
    · show (themeApply b (stubApply b (dirsApply b fs))).files _ = _
      rw [themeApply_files_frame b _ (b.root ++ b.config.book.src) "SUMMARY.md" (by decide),
        stubApply_files, if_pos hex, dirsApply_files]
    · show (gitignoreApply b (stubApply b (dirsApply b fs))).files _ = _
      rw [gitignoreApply_files,
        if_neg (append_ne_of_last_ne _ b.root "SUMMARY.md" ".gitignore" (by decide)),
        stubApply_files, if_pos hex, dirsApply_files]
    · show (themeApply b (gitignoreApply b (stubApply b (dirsApply b fs)))).files _ = _
      rw [themeApply_files_frame b _ (b.root ++ b.config.book.src) "SUMMARY.md" (by decide),
        gitignoreApply_files,
        if_neg (append_ne_of_last_ne _ b.root "SUMMARY.md" ".gitignore" (by decide)),
        stubApply_files, if_pos hex, dirsApply_files]
  · rw [runStages_eq, tomlApply_files,
      if_neg (append_ne_of_last_ne _ b.root "chapter_1.md" "book.toml" (by decide))]
    unfold midApply
    cases hg : b.create_gitignore <;> cases ht : b.copy_theme
    · show (stubApply b (dirsApply b fs)).files _ = _
      rw [stubApply_files, if_pos hex, dirsApply_files]
    · show (themeApply b (stubApply b (dirsApply b fs))).files _ = _
      rw [themeApply_files_frame b _ (b.root ++ b.config.book.src) "chapter_1.md" (by decide),
        stubApply_files, if_pos hex, dirsApply_files]
    · show (gitignoreApply b (stubApply b (dirsApply b fs))).files _ = _
      rw [gitignoreApply_files,
        if_neg (append_ne_of_last_ne _ b.root "chapter_1.md" ".gitignore" (by decide)),
        stubApply_files, if_pos hex, dirsApply_files]
    · show (themeApply b (gitignoreApply b (stubApply b (dirsApply b fs)))).files _ = _
      rw [themeApply_files_frame b _ (b.root ++ b.config.book.src) "chapter_1.md" (by decide),
        gitignoreApply_files,
        if_neg (append_ne_of_last_ne _ b.root "chapter_1.md" ".gitignore" (by decide)),
        stubApply_files, if_pos hex, dirsApply_files]
  · rw [runStages_eq, tomlApply_files, if_pos rfl]

/-- Witness for C4: a concrete root whose src/SUMMARY.md already holds user
content. -/
theorem c4_witness :
    create_stub_files noFail (BookBuilder.new ["r"]) fsSummaryOnly =
      Except.ok fsSummaryOnly ∧
    (runStages (BookBuilder.new ["r"]) fsSummaryOnly).files
        (["r"] ++ ["src"] ++ ["SUMMARY.md"]) =
      fsSummaryOnly.files (["r"] ++ ["src"] ++ ["SUMMARY.md"]) ∧
    (runStages (BookBuilder.new ["r"]) fsSummaryOnly).files
        (["r"] ++ ["src"] ++ ["chapter_1.md"]) =
      fsSummaryOnly.files (["r"] ++ ["src"] ++ ["chapter_1.md"]) ∧
    (runStages (BookBuilder.new ["r"]) fsSummaryOnly).files (["r"] ++ ["book.toml"]) =
      some (serializeConfig Config.default) :=
  c4_build_idempotent_stub (BookBuilder.new ["r"]) fsSummaryOnly (by decide)

/-- The root of a fresh builder. -/
theorem new_root (r : FPath) : (BookBuilder.new r).root = r := rfl

/-- A fresh builder carries the default configuration. -/
theorem new_config (r : FPath) : (BookBuilder.new r).config = Config.default := rfl

/-- The default source directory. -/
theorem default_src : Config.default.book.src = ["src"] := rfl

/-- The default build directory. -/
theorem default_build_dir : Config.default.build.build_dir = ["book"] := rfl

/-- C3: on an empty target directory with default options, the pipeline
produces exactly five artifacts under root and nothing else: the src and
book directories, book.toml holding the serialized default configuration,
src/SUMMARY.md holding the summary stub, and src/chapter_1.md holding the
chapter stub. -/
theorem c3_default_build_artifacts (root : FPath) (fs : FS)
    (hEmpty : ∀ q, strictUnder root q = true → fs.dirs q = false ∧ fs.files q = none)
    (q : FPath) (hq : strictUnder root q = true) :
    ((runStages (BookBuilder.new root) fs).dirs q = true ↔
      (q = root ++ ["src"] ∨ q = root ++ ["book"])) ∧
    (runStages (BookBuilder.new root) fs).files q =
      (if q = root ++ ["book.toml"] then some (serializeConfig Config.default)
       else if q = root ++ ["src", "chapter_1.md"] then some chapter_1_stub
       else if q = root ++ ["src", "SUMMARY.md"] then some summary_stub
       else none) := by
  have hsumSU : strictUnder root (root ++ ["src", "SUMMARY.md"]) = true :=
    strictUnder_append root _ (by decide)
  have hs1 : fs.dirs (root ++ ["src", "SUMMARY.md"]) = false := (hEmpty _ hsumSU).1
  have hs2 : fs.files (root ++ ["src", "SUMMARY.md"]) = none := (hEmpty _ hsumSU).2
  have e1 : (["src", "SUMMARY.md"] : FPath).isPrefixOf ["book"] = false := by decide
  have e2 : (["src", "SUMMARY.md"] : FPath).isPrefixOf ["src"] = false := by decide
  have e3 : (root ++ ["src", "SUMMARY.md"]).isPrefixOf root = false :=
    append_isPrefixOf_self root _ (by decide)
  have hex : ¬ ((dirsApply (BookBuilder.new root) fs).pathExists
      (root ++ ["src"] ++ ["SUMMARY.md"]) = true) := by
    simp [FS.pathExists, dirsApply_dirs, dirsApply_files, new_root, new_config,
      default_src, default_build_dir, List.append_assoc, List.cons_append,
      List.nil_append, isPrefixOf_append_cancel, e1, e2, e3, hs1, hs2]
  obtain ⟨t, htne, rfl⟩ := (strictUnder_iff root q).mp hq
  have hq2 : strictUnder root (root ++ t) = true := strictUnder_append root t htne
  have hd : fs.dirs (root ++ t) = false := (hEmpty _ hq2).1
  have hf : fs.files (root ++ t) = none := (hEmpty _ hq2).2
  constructor
  · rw [runStages_eq, tomlApply_dirs]
    show (stubApply (BookBuilder.new root) (dirsApply (BookBuilder.new root) fs)).dirs
      (root ++ t) = true ↔ _
    rw [stubApply_dirs, dirsApply_dirs]
    simp only [new_root, new_config, default_src, default_build_dir]
    rw [isPrefixOf_append_cancel, isPrefixOf_append_cancel,
      append_isPrefixOf_self root t htne, hd]
    simp only [Bool.or_false, Bool.or_eq_true, isPrefixOf_singleton,
      List.append_right_inj]
    constructor
    · rintro ((rfl | rfl) | (rfl | rfl))
      · exact absurd rfl htne
      · exact Or.inr rfl
      · exact absurd rfl htne
      · exact Or.inl rfl
    · rintro (rfl | rfl)
      · exact Or.inr (Or.inr rfl)
      · exact Or.inl (Or.inr rfl)
  · rw [runStages_eq, tomlApply_files]
    simp only [new_root, new_config]
    by_cases hb : root ++ t = root ++ ["book.toml"]
    · rw [if_pos hb, if_pos hb]
    · rw [if_neg hb, if_neg hb]
      show (stubApply (BookBuilder.new root) (dirsApply (BookBuilder.new root) fs)).files
        (root ++ t) = _
      rw [stubApply_files]
      simp only [new_root, new_config, default_src]
      rw [if_neg hex, dirsApply_files, hf]
      simp only [List.append_assoc, List.cons_append, List.nil_append]

/-- Witness for C3: the book.toml artifact of a concrete default build on an
empty root directory. -/
theorem c3_witness :
    ((runStages (BookBuilder.new ["r"]) fsRootOnly).dirs ["r", "book.toml"] = true ↔
      ((["r", "book.toml"] : FPath) = ["r"] ++ ["src"] ∨
        (["r", "book.toml"] : FPath) = ["r"] ++ ["book"])) ∧
    (runStages (BookBuilder.new ["r"]) fsRootOnly).files ["r", "book.toml"] =
      (if (["r", "book.toml"] : FPath) = ["r"] ++ ["book.toml"] then
        some (serializeConfig Config.default)
       else if (["r", "book.toml"] : FPath) = ["r"] ++ ["src", "chapter_1.md"] then
        some chapter_1_stub
       else if (["r", "book.toml"] : FPath) = ["r"] ++ ["src", "SUMMARY.md"] then
        some summary_stub
       else none) :=
  c3_default_build_artifacts ["r"] fsRootOnly
    (by
      intro q hq
      obtain ⟨t, ht, rfl⟩ := (strictUnder_iff _ _).mp hq
      refine ⟨?_, rfl⟩
      cases t with
      | nil => exact absurd rfl ht
      | cons a r2 => rfl)
    ["r", "book.toml"] (by decide)

/-- C8: copy_across_theme resolves the theme directory as config.html.theme
when set and config.book.src/theme otherwise, creates that directory and
its css subdirectory, writes exactly the nine named asset files with
content byte-identical to the embedded defaults (overwriting existing
files at those names), and touches no other file. -/
theorem c8_theme_copy (b : BookBuilder) (fs : FS) :
    copy_across_theme noFail b fs = Except.ok (themeApply b fs) ∧
    (∀ bk bd t, theme_dir (Config.mk bk bd (some (HtmlSection.mk (some t)))) = t) ∧
    (∀ bk bd, theme_dir (Config.mk bk bd none) = bk.src ++ ["theme"]) ∧
    (∀ bk bd, theme_dir (Config.mk bk bd (some (HtmlSection.mk none))) = bk.src ++ ["theme"]) ∧
    (themeApply b fs).dirs (b.root ++ theme_dir b.config) = true ∧
    (themeApply b fs).dirs (b.root ++ theme_dir b.config ++ ["css"]) = true ∧
    (themeApply b fs).files (b.root ++ theme_dir b.config ++ ["index.hbs"]) =
      some theme.INDEX ∧
    (themeApply b fs).files (b.root ++ theme_dir b.config ++ ["favicon.png"]) =
      some theme.FAVICON ∧
    (themeApply b fs).files (b.root ++ theme_dir b.config ++ ["book.js"]) =
      some theme.JS ∧
    (themeApply b fs).files (b.root ++ theme_dir b.config ++ ["highlight.css"]) =
      some theme.HIGHLIGHT_CSS ∧
    (themeApply b fs).files (b.root ++ theme_dir b.config ++ ["highlight.js"]) =
      some theme.HIGHLIGHT_JS ∧
    (themeApply b fs).files (b.root ++ theme_dir b.config ++ ["css"] ++ ["general.css"]) =
      some theme.GENERAL_CSS ∧
    (themeApply b fs).files (b.root ++ theme_dir b.config ++ ["css"] ++ ["chrome.css"]) =
      some theme.CHROME_CSS ∧
    (themeApply b fs).files (b.root ++ theme_dir b.config ++ ["css"] ++ ["print.css"]) =
      some theme.PRINT_CSS ∧
    (themeApply b fs).files (b.root ++ theme_dir b.config ++ ["css"] ++ ["variables.css"]) =
      some theme.VARIABLES_CSS ∧
    (∀ q, q ∉ themePaths b → (themeApply b fs).files q = fs.files q) := by
  refine ⟨copy_across_theme_noFail b fs, fun bk bd t => rfl, fun bk bd => rfl,
    fun bk bd => rfl, ?_, ?_, ?_, ?_, ?_, ?_, ?_, ?_, ?_, ?_, ?_, ?_⟩
  · rw [themeApply_dirs]
    have h1 : (b.root ++ theme_dir b.config).isPrefixOf (b.root ++ theme_dir b.config) = true :=
      List.isPrefixOf_iff_prefix.mpr (List.prefix_refl _)
    rw [h1]
    simp
  · rw [themeApply_dirs]
    have h1 : (b.root ++ theme_dir b.config ++ ["css"]).isPrefixOf
        (b.root ++ theme_dir b.config ++ ["css"]) = true :=
      List.isPrefixOf_iff_prefix.mpr (List.prefix_refl _)
    rw [h1]
    simp
  · rw [themeApply_files,
      if_neg (append_ne_of_last_ne (b.root ++ theme_dir b.config) _ "index.hbs" "variables.css" (by decide)),
      if_neg (append_ne_of_last_ne (b.root ++ theme_dir b.config) _ "index.hbs" "print.css" (by decide)),
      if_neg (append_ne_of_last_ne (b.root ++ theme_dir b.config) _ "index.hbs" "chrome.css" (by decide)),
      if_neg (append_ne_of_last_ne (b.root ++ theme_dir b.config) _ "index.hbs" "general.css" (by decide)),
      if_neg (append_ne_of_last_ne (b.root ++ theme_dir b.config) _ "index.hbs" "highlight.js" (by decide)),
      if_neg (append_ne_of_last_ne (b.root ++ theme_dir b.config) _ "index.hbs" "highlight.css" (by decide)),
      if_neg (append_ne_of_last_ne (b.root ++ theme_dir b.config) _ "index.hbs" "book.js" (by decide)),
      if_neg (append_ne_of_last_ne (b.root ++ theme_dir b.config) _ "index.hbs" "favicon.png" (by decide)),
      if_pos rfl]
  · rw [themeApply_files,
      if_neg (append_ne_of_last_ne (b.root ++ theme_dir b.config) _ "favicon.png" "variables.css" (by decide)),
      if_neg (append_ne_of_last_ne (b.root ++ theme_dir b.config) _ "favicon.png" "print.css" (by decide)),
      if_neg (append_ne_of_last_ne (b.root ++ theme_dir b.config) _ "favicon.png" "chrome.css" (by decide)),
      if_neg (append_ne_of_last_ne (b.root ++ theme_dir b.config) _ "favicon.png" "general.css" (by decide)),
      if_neg (append_ne_of_last_ne (b.root ++ theme_dir b.config) _ "favicon.png" "highlight.js" (by decide)),
      if_neg (append_ne_of_last_ne (b.root ++ theme_dir b.config) _ "favicon.png" "highlight.css" (by decide)),
      if_neg (append_ne_of_last_ne (b.root ++ theme_dir b.config) _ "favicon.png" "book.js" (by decide)),
      if_pos rfl]
  · rw [themeApply_files,
      if_neg (append_ne_of_last_ne (b.root ++ theme_dir b.config) _ "book.js" "variables.css" (by decide)),
      if_neg (append_ne_of_last_ne (b.root ++ theme_dir b.config) _ "book.js" "print.css" (by decide)),
      if_neg (append_ne_of_last_ne (b.root ++ theme_dir b.config) _ "book.js" "chrome.css" (by decide)),
      if_neg (append_ne_of_last_ne (b.root ++ theme_dir b.config) _ "book.js" "general.css" (by decide)),
      if_neg (append_ne_of_last_ne (b.root ++ theme_dir b.config) _ "book.js" "highlight.js" (by decide)),
      if_neg (append_ne_of_last_ne (b.root ++ theme_dir b.config) _ "book.js" "highlight.css" (by decide)),
      if_pos rfl]
  · rw [themeApply_files,
      if_neg (append_ne_of_last_ne (b.root ++ theme_dir b.config) _ "highlight.css" "variables.css" (by decide)),
      if_neg (append_ne_of_last_ne (b.root ++ theme_dir b.config) _ "highlight.css" "print.css" (by decide)),
      if_neg (append_ne_of_last_ne (b.root ++ theme_dir b.config) _ "highlight.css" "chrome.css" (by decide)),
      if_neg (append_ne_of_last_ne (b.root ++ theme_dir b.config) _ "highlight.css" "general.css" (by decide)),
      if_neg (append_ne_of_last_ne (b.root ++ theme_dir b.config) _ "highlight.css" "highlight.js" (by decide)),
      if_pos rfl]
  · rw [themeApply_files,
      if_neg (append_ne_of_last_ne (b.root ++ theme_dir b.config) _ "highlight.js" "variables.css" (by decide)),
      if_neg (append_ne_of_last_ne (b.root ++ theme_dir b.config) _ "highlight.js" "print.css" (by decide)),
      if_neg (append_ne_of_last_ne (b.root ++ theme_dir b.config) _ "highlight.js" "chrome.css" (by decide)),
      if_neg (append_ne_of_last_ne (b.root ++ theme_dir b.config) _ "highlight.js" "general.css" (by decide)),
      if_pos rfl]
  · rw [themeApply_files,
      if_neg (append_ne_of_last_ne (b.root ++ theme_dir b.config ++ ["css"]) _ "general.css" "variables.css" (by decide)),
      if_neg (append_ne_of_last_ne (b.root ++ theme_dir b.config ++ ["css"]) _ "general.css" "print.css" (by decide)),
      if_neg (append_ne_of_last_ne (b.root ++ theme_dir b.config ++ ["css"]) _ "general.css" "chrome.css" (by decide)),
      if_pos rfl]
  · rw [themeApply_files,
      if_neg (append_ne_of_last_ne (b.root ++ theme_dir b.config ++ ["css"]) _ "chrome.css" "variables.css" (by decide)),
      if_neg (append_ne_of_last_ne (b.root ++ theme_dir b.config ++ ["css"]) _ "chrome.css" "print.css" (by decide)),
      if_pos rfl]
  · rw [themeApply_files,
      if_neg (append_ne_of_last_ne (b.root ++ theme_dir b.config ++ ["css"]) _ "print.css" "variables.css" (by decide)),
      if_pos rfl]
  · rw [themeApply_files, if_pos rfl]
  · intro q hq
    simp only [themePaths, List.mem_cons, List.not_mem_nil, or_false, not_or] at hq
    obtain ⟨n1, n2, n3, n4, n5, n6, n7, n8, n9⟩ := hq
    rw [themeApply_files, if_neg n9, if_neg n8, if_neg n7, if_neg n6, if_neg n5,
      if_neg n4, if_neg n3, if_neg n2, if_neg n1]

/-- Witness for C8 at a concrete builder: the index.hbs asset is written and
an unrelated path is untouched. -/
theorem c8_witness :
    (themeApply (BookBuilder.new ["r"]) fsEmpty).files
        (["r"] ++ theme_dir Config.default ++ ["index.hbs"]) = some theme.INDEX ∧
    (themeApply (BookBuilder.new ["r"]) fsEmpty).files ["r", "other.md"] =
      fsEmpty.files ["r", "other.md"] := by
  obtain ⟨h1, h2, h3, h4, h5, h6, h7, h8, h9, h10, h11, h12, h13, h14, h15, h16⟩ :=
    c8_theme_copy (BookBuilder.new ["r"]) fsEmpty
  exact ⟨h7, h16 ["r", "other.md"] (by decide)⟩

/-- Pointwise file contents after utils::fs::write_file. -/
theorem writeFileUtil_files (fs : FS) (dest rel : FPath) (c : String) (q : FPath) :
    (writeFileUtil fs dest rel c).files q =
      if q = dest ++ rel then some c else fs.files q := rfl

/-- Pointwise directories after utils::fs::write_file. -/
theorem writeFileUtil_dirs (fs : FS) (dest rel : FPath) (c : String) (q : FPath) :
    (writeFileUtil fs dest rel c).dirs q =
      (q.isPrefixOf (dest ++ rel).dropLast || fs.dirs q) := rfl

/-- A book with no Chapter item induces no chapter write. -/
theorem chapterFold_no_chapters (dest : FPath) (items : List BookItem) (fs : FS)
    (h : items.all (fun i => match i with
      | BookItem.Chapter _ => false
      | _ => true) = true) :
    chapterFold dest items fs = fs := by
  induction items generalizing fs with
  | nil => rfl
  | cons i rest ih =>
    cases i with
    | Chapter ch => simp [List.all_cons] at h
    | Separator =>
      simp only [List.all_cons, Bool.and_eq_true] at h
      rw [show chapterFold dest (BookItem.Separator :: rest) fs =
        chapterFold dest rest fs from rfl]
      exact ih _ h.2
    | PartTitle title =>
      simp only [List.all_cons, Bool.and_eq_true] at h
      rw [show chapterFold dest (BookItem.PartTitle title :: rest) fs =
        chapterFold dest rest fs from rfl]
      exact ih _ h.2

/-- C5: rendering a book with zero chapters leaves the destination as an
existing empty directory: stale contents are removed by the stale-output
guard and the destination itself is unconditionally created. -/
theorem c5_zero_chapters_empty_destination (ctx : RenderContext) (fs : FS)
    (hwf : fs.wf)
    (hnc : ctx.book.items.all (fun i => match i with
      | BookItem.Chapter _ => false
      | _ => true) = true) :
    (render noFail ctx fs).err = none ∧
    (render noFail ctx fs).fs.dirs ctx.destination = true ∧
    (∀ q, strictUnder ctx.destination q = true →
      (render noFail ctx fs).fs.dirs q = false ∧
      (render noFail ctx fs).fs.files q = none) := by
  rw [render_noFail, chapterFold_no_chapters _ _ _ hnc]
  refine ⟨rfl, ?_, ?_⟩
  · show ((if fs.pathExists ctx.destination = true then removeDirContent fs ctx.destination
      else fs).createDirAll ctx.destination).dirs ctx.destination = true
    rw [createDirAll_dirs,
      List.isPrefixOf_iff_prefix.mpr (List.prefix_refl ctx.destination)]
    rfl
  · intro q hq
    constructor
    · show ((if fs.pathExists ctx.destination = true then removeDirContent fs ctx.destination
        else fs).createDirAll ctx.destination).dirs q = false
      rw [createDirAll_dirs, strictUnder_not_isPrefixOf ctx.destination q hq, Bool.false_or]
      by_cases he : fs.pathExists ctx.destination = true
      · rw [if_pos he]
        show (fs.dirs q && !(strictUnder ctx.destination q)) = false
        rw [hq]
        simp
      · rw [if_neg he]
        rw [← Bool.not_eq_true]
        intro hd
        have hdd : fs.dirs ctx.destination = true :=
          hwf ctx.destination q (by simp [FS.pathExists, hd]) hq
        exact he (by simp [FS.pathExists, hdd])
    · show ((if fs.pathExists ctx.destination = true then removeDirContent fs ctx.destination
        else fs).createDirAll ctx.destination).files q = none
      rw [createDirAll_files]
      by_cases he : fs.pathExists ctx.destination = true
      · rw [if_pos he]
        show (if strictUnder ctx.destination q = true then none else fs.files q) = none
        rw [if_pos hq]
      · rw [if_neg he]
        cases hc : fs.files q with
        | none => rfl
        | some c =>
          have hdd : fs.dirs ctx.destination = true :=
            hwf ctx.destination q (by simp [FS.pathExists, hc]) hq
          exact absurd (show fs.pathExists ctx.destination = true by
            simp [FS.pathExists, hdd]) he

/-- Witness for C5 at a concrete chapterless book and empty filesystem. -/
theorem c5_witness :
    (render noFail (RenderContext.mk ["d"]
      (Book.mk [BookItem.Separator, BookItem.PartTitle "Part"])) fsEmpty).err = none ∧
    (render noFail (RenderContext.mk ["d"]
      (Book.mk [BookItem.Separator, BookItem.PartTitle "Part"])) fsEmpty).fs.dirs ["d"] = true ∧
    (render noFail (RenderContext.mk ["d"]
      (Book.mk [BookItem.Separator, BookItem.PartTitle "Part"])) fsEmpty).fs.dirs
        ["d", "x"] = false ∧
    (render noFail (RenderContext.mk ["d"]
      (Book.mk [BookItem.Separator, BookItem.PartTitle "Part"])) fsEmpty).fs.files
        ["d", "x"] = none := by
  obtain ⟨h1, h2, h3⟩ := c5_zero_chapters_empty_destination
    (RenderContext.mk ["d"] (Book.mk [BookItem.Separator, BookItem.PartTitle "Part"]))
    fsEmpty
    (by intro p q hx hu; simp [fsEmpty, FS.pathExists] at hx)
    (by decide)
  obtain ⟨h4, h5⟩ := h3 ["d", "x"] (by decide)
  exact ⟨h1, h2, h4, h5⟩

/-- A prefix of a written path is comparable with the destination. -/
theorem prefix_dropLast_cases (dest rel q : FPath)
    (h : q.isPrefixOf (dest ++ rel).dropLast = true) :
    q.isPrefixOf dest = true ∨ dest.isPrefixOf q = true := by
  have h1 : q <+: dest ++ rel :=
    (List.isPrefixOf_iff_prefix.mp h).trans (List.dropLast_prefix _)
  have h2 : dest <+: dest ++ rel := List.prefix_append dest rel
  rcases List.prefix_or_prefix_of_prefix h1 h2 with h3 | h3
  · exact Or.inl (List.isPrefixOf_iff_prefix.mpr h3)
  · exact Or.inr (List.isPrefixOf_iff_prefix.mpr h3)

/-- The chapter loop creates entries only inside the destination subtree or
on the destination's own ancestor chain, and logs only writes inside the
destination subtree. -/
theorem renderItems_in_dest (orc : Oracle) (dest : FPath) (items : List BookItem)
    (fs : FS) (q : FPath) :
    ((renderItems orc dest items fs).fs.dirs q = true →
      (fs.dirs q = true ∨ dest.isPrefixOf q = true ∨ q.isPrefixOf dest = true)) ∧
    (((renderItems orc dest items fs).fs.files q).isSome = true →
      ((fs.files q).isSome = true ∨ dest.isPrefixOf q = true)) ∧
    (∀ e ∈ (renderItems orc dest items fs).log, dest.isPrefixOf e.1 = true) := by
  induction items generalizing fs with
  | nil =>
    refine ⟨fun h => Or.inl h, fun h => Or.inl h, ?_⟩
    intro e he
    simp [renderItems] at he
  | cons i rest ih =>
    cases i with
    | Chapter ch =>
      by_cases hw : orc.failWrite (dest ++ ch.path) = true
      · rw [show renderItems orc dest (BookItem.Chapter ch :: rest) fs =
            RenderOut.mk fs [] (some (RenderError.ChapterWrite (dest ++ ch.path))) from by
          simp [renderItems, hw]]
        refine ⟨fun h => Or.inl h, fun h => Or.inl h, ?_⟩
        intro e he
        simp at he
      · rw [show renderItems orc dest (BookItem.Chapter ch :: rest) fs =
            RenderOut.mk
              (renderItems orc dest rest (writeFileUtil fs dest ch.path ch.content)).fs
              ((dest ++ ch.path, ch.content) ::
                (renderItems orc dest rest (writeFileUtil fs dest ch.path ch.content)).log)
              (renderItems orc dest rest (writeFileUtil fs dest ch.path ch.content)).err from by
          simp [renderItems, hw]]
        obtain ⟨ihd, ihf, ihl⟩ := ih (writeFileUtil fs dest ch.path ch.content)
        refine ⟨?_, ?_, ?_⟩
        · intro h
          rcases ihd h with h2 | h2 | h2
          · rw [writeFileUtil_dirs] at h2
            rcases Bool.or_eq_true_iff.mp h2 with h3 | h3
            · rcases prefix_dropLast_cases dest ch.path q h3 with h4 | h4
              · exact Or.inr (Or.inr h4)
              · exact Or.inr (Or.inl h4)
            · exact Or.inl h3
          · exact Or.inr (Or.inl h2)
          · exact Or.inr (Or.inr h2)
        · intro h
          rcases ihf h with h2 | h2
          · rw [writeFileUtil_files] at h2
            by_cases hqd : q = dest ++ ch.path
            · subst hqd
              exact Or.inr (List.isPrefixOf_iff_prefix.mpr (List.prefix_append dest ch.path))
            · rw [if_neg hqd] at h2
              exact Or.inl h2
          · exact Or.inr h2
        · intro e he
          rcases List.mem_cons.mp he with rfl | he2
          · exact List.isPrefixOf_iff_prefix.mpr (List.prefix_append dest ch.path)
          · exact ihl e he2
    | Separator =>
      rw [show renderItems orc dest (BookItem.Separator :: rest) fs =
          renderItems orc dest rest fs from rfl]
      exact ih fs
    | PartTitle title =>
      rw [show renderItems orc dest (BookItem.PartTitle title :: rest) fs =
          renderItems orc dest rest fs from rfl]
      exact ih fs

/-- finishRender after the chapter loop keeps the containment property:
entries come from the base filesystem, the destination subtree, or the
destination's ancestor chain. -/
theorem finishRender_in_dest (orc : Oracle) (dest : FPath) (items : List BookItem)
    (fs0 fs1 : FS) (q : FPath)
    (hd0 : fs0.dirs q = true → fs1.dirs q = true)
    (hf0 : (fs0.files q).isSome = true → (fs1.files q).isSome = true) :
    ((finishRender orc dest (renderItems orc dest items fs0)).fs.dirs q = true →
      (fs1.dirs q = true ∨ dest.isPrefixOf q = true ∨ q.isPrefixOf dest = true)) ∧
    (((finishRender orc dest (renderItems orc dest items fs0)).fs.files q).isSome = true →
      ((fs1.files q).isSome = true ∨ dest.isPrefixOf q = true)) ∧
    (∀ e ∈ (finishRender orc dest (renderItems orc dest items fs0)).log,
      dest.isPrefixOf e.1 = true) := by
  obtain ⟨ihd, ihf, ihl⟩ := renderItems_in_dest orc dest items fs0 q
  have step : ∀ h : (renderItems orc dest items fs0).fs.dirs q = true,
      fs1.dirs q = true ∨ dest.isPrefixOf q = true ∨ q.isPrefixOf dest = true := by
    intro h
    rcases ihd h with h2 | h2 | h2
    exacts [Or.inl (hd0 h2), Or.inr (Or.inl h2), Or.inr (Or.inr h2)]
  have stepf : ∀ h : ((renderItems orc dest items fs0).fs.files q).isSome = true,
      (fs1.files q).isSome = true ∨ dest.isPrefixOf q = true := by
    intro h
    rcases ihf h with h2 | h2
    exacts [Or.inl (hf0 h2), Or.inr h2]
  unfold finishRender
  cases he : (renderItems orc dest items fs0).err with
  | some e => exact ⟨step, stepf, ihl⟩
  | none =>
    by_cases h3 : orc.failCreateDir dest = true
    · rw [if_pos h3]
      exact ⟨step, stepf, ihl⟩
    · rw [if_neg h3]
      refine ⟨?_, stepf, ihl⟩
      intro h
      rw [createDirAll_dirs] at h
      rcases Bool.or_eq_true_iff.mp h with h4 | h4
      · exact Or.inr (Or.inr h4)
      · exact step h4

/-- Containment over the lexical write model (list-append join): every run
of render creates directories only inside the destination subtree or on its
ancestor chain, and writes files only inside the subtree.  Over this model
the property is unconditional; the resolving model below needs the paths to
be free of parent components. -/
theorem render_in_dest_lexical (orc : Oracle) (ctx : RenderContext)
    (fs : FS) (q : FPath) :
    ((render orc ctx fs).fs.dirs q = true →
      (fs.dirs q = true ∨ ctx.destination.isPrefixOf q = true ∨
        q.isPrefixOf ctx.destination = true)) ∧
    (((render orc ctx fs).fs.files q).isSome = true →
      ((fs.files q).isSome = true ∨ ctx.destination.isPrefixOf q = true)) ∧
    (∀ e ∈ (render orc ctx fs).log, ctx.destination.isPrefixOf e.1 = true) := by
  unfold render
  by_cases h1 : fs.pathExists ctx.destination = true
  · rw [if_pos h1]
    by_cases h2 : orc.failRemove ctx.destination = true
    · rw [if_pos h2]
      refine ⟨fun h => Or.inl h, fun h => Or.inl h, ?_⟩
      intro e he
      simp at he
    · rw [if_neg h2]
      refine finishRender_in_dest orc ctx.destination ctx.book.items
        (removeDirContent fs ctx.destination) fs q ?_ ?_
      · intro h
        exact (Bool.and_eq_true_iff.mp h).1
      · intro h
        by_cases hs : strictUnder ctx.destination q = true
        · rw [show (removeDirContent fs ctx.destination).files q =
            (if strictUnder ctx.destination q = true then none else fs.files q) from rfl,
            if_pos hs] at h
          simp at h
        · rw [show (removeDirContent fs ctx.destination).files q =
            (if strictUnder ctx.destination q = true then none else fs.files q) from rfl,
            if_neg hs] at h
          exact h
  · rw [if_neg h1]
    exact finishRender_in_dest orc ctx.destination ctx.book.items fs fs q
      (fun h => h) (fun h => h)

/-- A path all of whose components differ from ".." has no parent
component. -/
theorem no_up_of_all (p : FPath) (h : p.all (fun c => !(c == "..")) = true) :
    ".." ∉ p := by
  intro hm
  have h2 := List.all_eq_true.mp h _ hm
  simp at h2

/-- Resolution is the identity on a component list free of ".." entries. -/
theorem resolveComps_no_up (acc rest : FPath) (h : ".." ∉ rest) :
    resolveComps acc rest = acc ++ rest := by
  induction rest generalizing acc with
  | nil => simp [resolveComps]
  | cons c cs ih =>
    simp only [List.mem_cons, not_or] at h
    rw [show resolveComps acc (c :: cs) =
        (if c = ".." then resolveComps acc.dropLast cs
         else resolveComps (acc ++ [c]) cs) from rfl,
      if_neg (fun hc => h.1 hc.symm), ih _ h.2]
    simp

/-- Resolution is the identity on a path free of parent components. -/
theorem resolve_no_up (p : FPath) (h : ".." ∉ p) : resolve p = p := by
  rw [resolve, resolveComps_no_up [] p h, List.nil_append]

/-- On paths free of parent components the resolving write model agrees
with the lexical one. -/
theorem writeFileUtilR_no_up (fs : FS) (dest rel : FPath) (c : String)
    (h : ".." ∉ dest ++ rel) :
    writeFileUtilR fs dest rel c = writeFileUtil fs dest rel c := by
  unfold writeFileUtilR writeFileUtil
  rw [resolve_no_up _ h]

/-- On chapter paths free of parent components the resolving chapter loop
agrees with the lexical one. -/
theorem renderItemsR_no_up (orc : Oracle) (dest : FPath) (items : List BookItem)
    (fs : FS) (hdest : ".." ∉ dest)
    (hch : items.all (fun i => match i with
      | BookItem.Chapter ch => ch.path.all (fun c => !(c == ".."))
      | _ => true) = true) :
    renderItemsR orc dest items fs = renderItems orc dest items fs := by
  induction items generalizing fs with
  | nil => rfl
  | cons i rest ih =>
    cases i with
    | Chapter ch =>
      simp only [List.all_cons, Bool.and_eq_true] at hch
      have hne : ".." ∉ dest ++ ch.path := by
        rw [List.mem_append]
        rintro (hc | hc)
        · exact hdest hc
        · exact no_up_of_all ch.path hch.1 hc
      have hr : resolve (dest ++ ch.path) = dest ++ ch.path := resolve_no_up _ hne
      rw [show renderItemsR orc dest (BookItem.Chapter ch :: rest) fs =
          (if orc.failWrite (resolve (dest ++ ch.path)) then
            RenderOut.mk fs []
              (some (RenderError.ChapterWrite (resolve (dest ++ ch.path))))
          else
            RenderOut.mk
              (renderItemsR orc dest rest (writeFileUtilR fs dest ch.path ch.content)).fs
              ((resolve (dest ++ ch.path), ch.content) ::
                (renderItemsR orc dest rest (writeFileUtilR fs dest ch.path ch.content)).log)
              (renderItemsR orc dest rest (writeFileUtilR fs dest ch.path ch.content)).err)
          from rfl,
        hr, writeFileUtilR_no_up fs dest ch.path ch.content hne, ih _ hch.2]
      rfl
    | Separator =>
      simp only [List.all_cons, Bool.and_eq_true] at hch
      rw [show renderItemsR orc dest (BookItem.Separator :: rest) fs =
          renderItemsR orc dest rest fs from rfl, ih _ hch.2]
      rfl
    | PartTitle title =>
      simp only [List.all_cons, Bool.and_eq_true] at hch
      rw [show renderItemsR orc dest (BookItem.PartTitle title :: rest) fs =
          renderItemsR orc dest rest fs from rfl, ih _ hch.2]
      rfl

/-- On chapter paths and destination free of parent components the
resolving render agrees with the lexical one. -/
theorem renderR_no_up (orc : Oracle) (ctx : RenderContext) (fs : FS)
    (hdest : ".." ∉ ctx.destination)
    (hch : ctx.book.items.all (fun i => match i with
      | BookItem.Chapter ch => ch.path.all (fun c => !(c == ".."))
      | _ => true) = true) :
    renderR orc ctx fs = render orc ctx fs := by
  unfold renderR render
  rw [renderItemsR_no_up orc ctx.destination ctx.book.items
      (removeDirContent fs ctx.destination) hdest hch,
    renderItemsR_no_up orc ctx.destination ctx.book.items fs hdest hch]

/-- C9 counterexample: a chapter whose path holds a parent component makes
the renderer create a file outside the destination subtree.  With
destination out and chapter.path ../escape.md the write lands at
escape.md — a sibling of the destination, not inside its subtree, not on
its ancestor chain and not the destination itself. -/
theorem c9_counterexample :
    ((renderR noFail (RenderContext.mk ["out"]
        (Book.mk [BookItem.Chapter (Chapter.mk ["..", "escape.md"] "gone")]))
      fsEmpty).fs.files ["escape.md"]).isSome = true ∧
    (fsEmpty.files ["escape.md"]).isSome = false ∧
    (["out"] : FPath).isPrefixOf ["escape.md"] = false ∧
    (["escape.md"] : FPath).isPrefixOf ["out"] = false ∧
    (["escape.md"] : FPath) ≠ ["out"] := by decide

/-- C9 (amended): when the destination and every chapter path are free of
parent ("..") components, the renderer creates no entry outside the
destination subtree other than the directories guaranteeing the
destination itself, and every file written for a Chapter lies inside the
destination subtree, for every oracle (also failing runs). -/
theorem c9_renderer_stays_in_destination (orc : Oracle) (ctx : RenderContext)
    (fs : FS) (q : FPath)
    (hdest : ".." ∉ ctx.destination)
    (hch : ctx.book.items.all (fun i => match i with
      | BookItem.Chapter ch => ch.path.all (fun c => !(c == ".."))
      | _ => true) = true) :
    ((renderR orc ctx fs).fs.dirs q = true →
      (fs.dirs q = true ∨ ctx.destination.isPrefixOf q = true ∨
        q.isPrefixOf ctx.destination = true)) ∧
    (((renderR orc ctx fs).fs.files q).isSome = true →
      ((fs.files q).isSome = true ∨ ctx.destination.isPrefixOf q = true)) ∧
    (∀ e ∈ (renderR orc ctx fs).log, ctx.destination.isPrefixOf e.1 = true) := by
  rw [renderR_no_up orc ctx fs hdest hch]
  exact render_in_dest_lexical orc ctx fs q

/-- Witness for the amended C9: the file written for a concrete chapter
with a plain relative path lies inside the destination subtree. -/
theorem c9_witness :
    (fsEmpty.files ["d", "c.md"]).isSome = true ∨
      (["d"] : FPath).isPrefixOf ["d", "c.md"] = true :=
  (c9_renderer_stays_in_destination noFail
    (RenderContext.mk ["d"] (Book.mk [BookItem.Chapter (Chapter.mk ["c.md"] "hi")]))
    fsEmpty ["d", "c.md"] (by decide) (by decide)).2.1 (by decide)

end MB
